import Mathlib

/-!
Shallow embedding of `import_export/mixins.py`: Django/DRF mixins that expose
bulk export of database records.  Pure data (querysets, tabular datasets,
strings) replaces Django objects; Python exceptions (`ValueError` from `int`,
`IndexError` from list indexing, `AttributeError` from `None.Meta`) become an
`Except Fault` result; the `post_export` signal emission becomes an explicit
trace of `Signal` values returned next to the response.
-/

/-- Rows flowing out of the database; a queryset is a list of rows. -/
abbrev Row := List String

/-- Queryset: an externally supplied ordered collection of records. -/
abbrev QuerySet := List Row

/-- Tabular data: the format-agnostic intermediate representation produced by
a resource's `export` and consumed by a format's `export_data`. -/
abbrev Dataset := List Row

/-- Keyword arguments passed to a resource constructor
(`get_resource_kwargs` returns `{}`, i.e. `[]`). -/
abbrev Kwargs := List (String × String)

/-- Format descriptor, mirroring the interface consumed from
`base_formats`: capability flags, title, extension, content type, and the
encode operation `export_data`. Instances are stateless, so a Python format
class and its `f()` instance collapse into one structure. -/
structure Format where
  can_import : Bool
  can_export : Bool
  get_title : String
  get_extension : String
  get_content_type : String
  export_data : Dataset → String

/-- Record type (a Django model class): its `__name__` plus, for the
factory-derived resource, the export behavior that resource exhibits
(the factory is external to this file, so its produced behavior is a
parameter carried by the model). -/
structure PyModel where
  name : String
  factory_export : Kwargs → QuerySet → Dataset

/-- Resource class: `Meta.model` (here `Meta_model`) names the record type;
`exportFn` is `ResourceClass(**kwargs).export(queryset)`. -/
structure ResourceClass where
  Meta_model : PyModel
  exportFn : Kwargs → QuerySet → Dataset

/-- Modelled from the spec: `modelresource_factory` lives in
`resources.py`, which is not part of the sources; per the spec it
"derives one automatically from the view's record type via a factory",
returning "a resource class whose declared record type is `T`". -/
def modelresource_factory (m : PyModel) : ResourceClass :=
  { Meta_model := m, exportFn := m.factory_export }

/-- HTTP request as far as this module reads it: the `format` GET query
parameter (`request.GET.get('format', 'csv')`); `none` means absent. -/
structure Request where
  formatParam : Option String

/-- Python runtime faults that the module does not catch. -/
inductive Fault
  | valueError
  | indexError
  | attributeError
deriving DecidableEq, Repr

/-- HTTP response with a body, `Content-Type`, the `Content-Disposition`
header value, and status (HttpResponse defaults to 200). -/
structure HttpResp where
  body : String
  contentType : String
  contentDisposition : String
  status : Nat
deriving DecidableEq, Repr

/-- Response returned by a view entry point: either a plain `HttpResponse`
or `JsonResponse(data=\x7b'message': msg\x7d, status=s)`, modelled by its
message and status. -/
inductive Response
  | http (r : HttpResp)
  | json (message : String) (status : Nat)
deriving DecidableEq, Repr

/-- Modelled from the spec: `post_export` is defined in `signals.py`, not in
the sources; per the spec the form flow "emits a post-export notification
event". Emission is modelled as a trace entry carrying the payload
`model=self.model`. -/
inductive Signal
  | postExport (model : PyModel)

/-- View state: the class-level configuration and framework-supplied
capabilities a mixin instance sees.  `get_queryset` and `filter_queryset`
are the hosting framework's methods, `get_filterset_qs` is
`get_filterset(get_filterset_class()).qs` when the view has the
`get_filterset` capability (`none` models `hasattr` being false), and
`request` is `self.request`. -/
structure View where
  formats : List Format
  resource_class : Option ResourceClass
  model : PyModel
  get_queryset : QuerySet
  filter_queryset : QuerySet → QuerySet
  get_filterset_qs : Option QuerySet
  request : Request

/-- `BaseImportExportMixin.get_resource_class`: the explicitly configured
class when one is set (a class object is always truthy), otherwise the
factory applied to `self.model`. -/
def get_resource_class (v : View) : ResourceClass :=
  match v.resource_class with
  | none => modelresource_factory v.model
  | some rc => rc

/-- `BaseImportExportMixin.get_resource_kwargs`: returns `{}`. -/
def get_resource_kwargs (_v : View) (_request : Request) : Kwargs := []

/-- `BaseImportMixin.get_import_resource_class`. -/
def get_import_resource_class (v : View) : ResourceClass :=
  get_resource_class v

/-- `BaseImportMixin.get_import_formats`:
`[f for f in self.formats if f().can_import()]`. -/
def get_import_formats (v : View) : List Format :=
  v.formats.filter (fun f => f.can_import)

/-- `BaseExportMixin.get_export_formats`:
`[f for f in self.formats if f().can_export()]`. -/
def get_export_formats (v : View) : List Format :=
  v.formats.filter (fun f => f.can_export)

/-- `BaseExportMixin.get_export_resource_class`. -/
def get_export_resource_class (v : View) : ResourceClass :=
  get_resource_class v

/-- `BaseExportMixin.get_export_resource_kwargs`. -/
def get_export_resource_kwargs (v : View) (request : Request) : Kwargs :=
  get_resource_kwargs v request

/-- `BaseExportMixin.get_data_for_export`: construct the resolved resource
class with the resolved kwargs and export the queryset. -/
def get_data_for_export (v : View) (request : Request) (queryset : QuerySet) : Dataset :=
  (get_export_resource_class v).exportFn (get_export_resource_kwargs v request) queryset

/-- `BaseExportMixin.get_export_filename`: reads
`self.resource_class.Meta.model.__name__` directly from the class-level
field; when `resource_class` is `None` this raises `AttributeError`,
modelled as `none`.  `today` is `now().strftime('%Y-%m-%d')`, the clock
read at call time. -/
def get_export_filename (v : View) (today : String) (file_format : Format) : Option String :=
  match v.resource_class with
  | none => none
  | some rc =>
      some (rc.Meta_model.name ++ "-" ++ today ++ "." ++ file_format.get_extension)

/-- `ExportViewMixin.get_export_data`: encode via the chosen format the
tabular data extracted for `self.request`. -/
def get_export_data (v : View) (file_format : Format) (queryset : QuerySet) : String :=
  file_format.export_data (get_data_for_export v v.request queryset)

/-- Python list indexing `l[i]` with an `int` index: negative indices count
from the end, anything outside `[-len, len)` raises `IndexError`. -/
def pyIndex {α : Type} (l : List α) (i : Int) : Except Fault α :=
  if i + l.length < 0 then .error Fault.indexError
  else if i < 0 then
    match l.get? (i + l.length).toNat with
    | some x => .ok x
    | none => .error Fault.indexError
  else
    match l.get? i.toNat with
    | some x => .ok x
    | none => .error Fault.indexError

/-- Python `list.index(x)`: position of the first occurrence, `none` when
absent (where Python raises `ValueError`). -/
def listIndex (target : String) : List String → Option Nat
  | [] => none
  | t :: ts => if t = target then some 0 else (listIndex target ts).map (· + 1)

/-- Value of a decimal digit character, `none` for non-digits. -/
def digitVal? (c : Char) : Option Nat :=
  if c.isDigit then some (c.toNat - Char.toNat (Char.ofNat 48)) else none

/-- Accumulating decimal parser over a character list. -/
def parseDigitsAux (acc : Nat) : List Char → Option Nat
  | [] => some acc
  | c :: cs =>
    match digitVal? c with
    | none => none
    | some d => parseDigitsAux (acc * 10 + d) cs

/-- Python `int(str)` on a cleaned form value: an optional minus sign
followed by decimal digits; anything else raises `ValueError`, modelled
as `none`. -/
def pyInt (s : String) : Option Int :=
  match s.data with
  | [] => none
  | c :: cs =>
    if c = Char.ofNat 45 then
      match cs with
      | [] => none
      | _ => (parseDigitsAux 0 cs).map (fun n => -(n : Int))
    else (parseDigitsAux 0 (c :: cs)).map (fun n => (n : Int))

/-- Queryset used by `ExportViewFormMixin.form_valid`: the filterset's
queryset when the view has the `get_filterset` capability, otherwise
`self.get_queryset()`. -/
def form_queryset (v : View) : QuerySet :=
  match v.get_filterset_qs with
  | some qs => qs
  | none => v.get_queryset

/-- `ExportViewFormMixin.form_valid`: resolve the format by the submitted
ordinal index (`int(form.cleaned_data['file_format'])`), resolve the
queryset, encode, build the response with content type and
`Content-Disposition`, send `post_export`, return.  The try/except around
`HttpResponse` only covers a Django-1.7 keyword-name difference and builds
the same response either way, so it is modelled as one construction. -/
def form_valid (v : View) (today : String) (file_format_field : String) :
    Except Fault (Response × List Signal) :=
  match pyInt file_format_field with
  | none => .error Fault.valueError
  | some n =>
    match pyIndex (get_export_formats v) n with
    | .error e => .error e
    | .ok file_format =>
      let queryset := form_queryset v
      let export_data := get_export_data v file_format queryset
      let content_type := file_format.get_content_type
      match get_export_filename v today file_format with
      | none => .error Fault.attributeError
      | some filename =>
        .ok (Response.http
              { body := export_data
                contentType := content_type
                contentDisposition := "attachment; filename=\"" ++ filename ++ "\""
                status := 200 },
             [Signal.postExport v.model])

/-- `ExportModelDRFMixin.get_allowed_export_formats`:
`[f().get_title() for f in self.formats if f().can_export()]`. -/
def get_allowed_export_formats (v : View) : List String :=
  (v.formats.filter (fun f => f.can_export)).map (fun f => f.get_title)

/-- `ExportModelDRFMixin.export` (named `drf_export` because `export` is a
Lean keyword): look the requested title up in the allowed titles
(default `'csv'`), answer 400 on `ValueError`, otherwise index into
`get_export_formats()`, encode the framework-filtered queryset and build
the download response.  No signal is sent on this path. -/
def drf_export (v : View) (today : String) :
    Except Fault (Response × List Signal) :=
  let formats := get_export_formats v
  match listIndex (v.request.formatParam.getD "csv") (get_allowed_export_formats v) with
  | none => .ok (Response.json "format is not supported" 400, [])
  | some index =>
    match formats.get? index with
    | none => .error Fault.indexError
    | some file_format =>
      let content_type := file_format.get_content_type
      let queryset := v.filter_queryset v.get_queryset
      let export_data := get_export_data v file_format queryset
      match get_export_filename v today file_format with
      | none => .error Fault.attributeError
      | some filename =>
        .ok (Response.http
              { body := export_data
                contentType := content_type
                contentDisposition := "attachment; filename=\"" ++ filename ++ "\""
                status := 200 },
             [])

/-! Concrete fixtures: a csv-like export-capable format, an export-only
spreadsheet format, an import-only format, and views with and without an
explicitly configured resource class. -/

/-- A csv-like format, both import- and export-capable. -/
def csvFormat : Format :=
  { can_import := true
    can_export := true
    get_title := "csv"
    get_extension := "csv"
    get_content_type := "text/csv"
    export_data := fun d => String.intercalate "|" (d.map (String.intercalate ",")) }

/-- A spreadsheet-like format that can export but not import. -/
def xlsxFormat : Format :=
  { can_import := false
    can_export := true
    get_title := "xlsx"
    get_extension := "xlsx"
    get_content_type := "application/vnd.ms-excel"
    export_data := fun _ => "xlsx-bytes" }

/-- A format that can import but not export. -/
def importOnlyFormat : Format :=
  { can_import := true
    can_export := false
    get_title := "fixture"
    get_extension := "fix"
    get_content_type := "text/fixture"
    export_data := fun _ => "fix-bytes" }

/-- A record type named `Book` whose factory-derived resource exports the
queryset unchanged. -/
def bookModel : PyModel :=
  { name := "Book", factory_export := fun _ qs => qs }

/-- An explicitly configured resource class for `Book`. -/
def bookResource : ResourceClass :=
  { Meta_model := bookModel, exportFn := fun _ qs => qs }

/-- A view configured with three formats, an explicit resource class, no
filterset capability, and an identity framework filter. -/
def sampleView : View :=
  { formats := [csvFormat, importOnlyFormat, xlsxFormat]
    resource_class := some bookResource
    model := bookModel
    get_queryset := [["a", "b"], ["c", "d"]]
    filter_queryset := fun qs => qs
    get_filterset_qs := none
    request := { formatParam := some "csv" } }

/-- The same view with `resource_class` left at its default `None`. -/
def sampleViewNoRC : View :=
  { sampleView with resource_class := none }

/-- The same view with the `get_filterset` capability present. -/
def sampleViewFiltered : View :=
  { sampleView with get_filterset_qs := some [["f", "g"]] }

/-! Helper lemmas about the Python-style primitives. -/

/-- `listIndex` returns `none` exactly when the target is absent. -/
theorem listIndex_eq_none_iff (target : String) (l : List String) :
    listIndex target l = none ↔ target ∉ l := by
  induction l with
  | nil => simp [listIndex]
  | cons t ts ih =>
    by_cases h : t = target
    · subst h
      simp [listIndex]
    · have hmap : listIndex target (t :: ts) = (listIndex target ts).map (fun n => n + 1) := by
        simp [listIndex, h]
      rw [hmap, Option.map_eq_none', ih]
      constructor
      · intro hnot
        simp only [List.mem_cons]
        rintro (h1 | h2)
        · exact h h1.symm
        · exact hnot h2
      · intro hnot hmem
        exact hnot (List.mem_cons_of_mem t hmem)

/-- The element found by `listIndex` sits at the reported position. -/
theorem listIndex_get (target : String) (l : List String) (i : Nat)
    (h : listIndex target l = some i) : l.get? i = some target := by
  induction l generalizing i with
  | nil => simp [listIndex] at h
  | cons t ts ih =>
    by_cases ht : t = target
    · subst ht
      simp [listIndex] at h
      simp [← h]
    · simp [listIndex, ht] at h
      obtain ⟨j, hj, hji⟩ := h
      subst hji
      simpa using ih j hj

/-- Indexing with a natural number that has an element returns it. -/
theorem pyIndex_ok {α : Type} {l : List α} {i : Nat} {x : α}
    (h : l.get? i = some x) : pyIndex l (i : Int) = .ok x := by
  unfold pyIndex
  have h1 : ¬ ((i : Int) + (l.length : Int) < 0) := by omega
  have h2 : ¬ ((i : Int) < 0) := by omega
  rw [if_neg h1, if_neg h2, Int.toNat_natCast, h]

/-- Indexing at or past the length raises `IndexError`. -/
theorem pyIndex_oob {α : Type} (l : List α) (j : Int)
    (h : (l.length : Int) ≤ j) : pyIndex l j = .error Fault.indexError := by
  unfold pyIndex
  have h1 : ¬ (j + (l.length : Int) < 0) := by omega
  have h2 : ¬ (j < 0) := by omega
  have hlen : l.length ≤ j.toNat := by omega
  rw [if_neg h1, if_neg h2, List.get?_eq_none.mpr hlen]

/-- Characterization of a successful `form_valid` run: with a parsable
in-range index, the response is built from the format at that index and
the form queryset, and exactly the `post_export` signal is emitted. -/
theorem form_valid_ok (v : View) (today s : String) (i : Nat)
    (rc : ResourceClass) (f : Format)
    (hparse : pyInt s = some (i : Int))
    (hf : (get_export_formats v).get? i = some f)
    (hrc : v.resource_class = some rc) :
    form_valid v today s = .ok (Response.http
      { body := f.export_data (get_data_for_export v v.request (form_queryset v))
        contentType := f.get_content_type
        contentDisposition := "attachment; filename=\"" ++
          (rc.Meta_model.name ++ "-" ++ today ++ "." ++ f.get_extension) ++ "\""
        status := 200 },
      [Signal.postExport v.model]) := by
  unfold form_valid
  simp only [hparse]
  simp only [pyIndex_ok hf]
  simp [get_export_data, get_export_filename, hrc]

/-- Claim C1: `get_export_formats` returns exactly the ordered sublist of
the configured `formats` whose instances report `can_export`, preserving
relative order, and `get_import_formats` likewise for `can_import`. -/
theorem c1_format_filtering (v : View) :
    (get_export_formats v).Sublist v.formats ∧
    (∀ f, f ∈ get_export_formats v ↔ f ∈ v.formats ∧ f.can_export = true) ∧
    (get_import_formats v).Sublist v.formats ∧
    (∀ f, f ∈ get_import_formats v ↔ f ∈ v.formats ∧ f.can_import = true) := by
  refine ⟨List.filter_sublist v.formats, fun f => ?_,
          List.filter_sublist v.formats, fun f => ?_⟩ <;>
    simp [get_export_formats, get_import_formats, List.mem_filter]

/-- Claim C2: the allowed-titles list has the same length as
`get_export_formats`, position by position it holds exactly the titles of
`get_export_formats`, and a title matched by position in the allowed list
resolves to a format bearing that title in `get_export_formats`. -/
theorem c2_allowed_titles_align (v : View) :
    (get_allowed_export_formats v).length = (get_export_formats v).length ∧
    (∀ i : Nat, (get_allowed_export_formats v).get? i =
      ((get_export_formats v).get? i).map Format.get_title) ∧
    (∀ t i, listIndex t (get_allowed_export_formats v) = some i →
      ∃ f, (get_export_formats v).get? i = some f ∧ f.get_title = t) := by
  refine ⟨?_, ?_, ?_⟩
  · simp [get_allowed_export_formats, get_export_formats]
  · intro i
    simp [get_allowed_export_formats, get_export_formats, List.getElem?_map]
  · intro t i h
    have hget : (get_allowed_export_formats v).get? i = some t := listIndex_get t _ i h
    have hmap : (get_allowed_export_formats v).get? i =
        ((get_export_formats v).get? i).map Format.get_title := by
      simp [get_allowed_export_formats, get_export_formats, List.getElem?_map]
    rw [hmap] at hget
    rcases Option.map_eq_some'.mp hget with ⟨f, hf, hft⟩
    exact ⟨f, hf, hft⟩

/-- Witness for C2 at a concrete view: position 1 of the allowed list is
"xlsx" and resolves to a format titled "xlsx". -/
theorem c2_witness :
    (get_allowed_export_formats sampleView).get? 1 = some "xlsx" ∧
    ∃ f, (get_export_formats sampleView).get? 1 = some f ∧ f.get_title = "xlsx" := by
  have hc := c2_allowed_titles_align sampleView
  refine ⟨?_, hc.2.2 "xlsx" 1 (by decide)⟩
  rw [hc.2.1 1]
  rfl

/-- Claim C3: a requested format title (default "csv") absent from the
allowed export titles makes the API export action return the 400 JSON
response with message "format is not supported", emitting no signal. -/
theorem c3_unsupported_format_rejected (v : View) (today : String)
    (h : v.request.formatParam.getD "csv" ∉ get_allowed_export_formats v) :
    drf_export v today = .ok (Response.json "format is not supported" 400, []) := by
  unfold drf_export
  rw [(listIndex_eq_none_iff _ _).mpr h]

/-- Witness for C3: requesting `?format=unknownformat` on the sample view
yields the 400 JSON response. -/
theorem c3_witness :
    drf_export { sampleView with request := { formatParam := some "unknownformat" } }
        "2026-10-12" =
      .ok (Response.json "format is not supported" 400, []) :=
  c3_unsupported_format_rejected
    { sampleView with request := { formatParam := some "unknownformat" } }
    "2026-10-12" (by decide)

/-- Claim C5: with a configured `resource_class`, the export filename is
the configured resource's `Meta.model` name, a dash, the date read at call
time, a dot, and the format's extension. -/
theorem c5_export_filename_shape (v : View) (today : String) (f : Format)
    (rc : ResourceClass) (h : v.resource_class = some rc) :
    get_export_filename v today f =
      some (rc.Meta_model.name ++ "-" ++ today ++ "." ++ f.get_extension) := by
  simp [get_export_filename, h]

/-- Witness for C5 on the sample view and the csv format. -/
theorem c5_witness :
    get_export_filename sampleView "2026-10-12" csvFormat = some "Book-2026-10-12.csv" :=
  c5_export_filename_shape sampleView "2026-10-12" csvFormat bookResource rfl

/-- Claim C8: `get_resource_class` returns the configured class when one
is declared and the factory-derived class otherwise, and both
`get_import_resource_class` and `get_export_resource_class` return the
same result. -/
theorem c8_resource_class_resolution (v : View) :
    (∀ rc, v.resource_class = some rc → get_resource_class v = rc) ∧
    (v.resource_class = none → get_resource_class v = modelresource_factory v.model) ∧
    get_import_resource_class v = get_resource_class v ∧
    get_export_resource_class v = get_resource_class v := by
  refine ⟨fun rc h => ?_, fun h => ?_, rfl, rfl⟩ <;> simp [get_resource_class, h]

/-- Witness for C8: resolution with and without a configured class. -/
theorem c8_witness :
    get_resource_class sampleView = bookResource ∧
    get_resource_class sampleViewNoRC = modelresource_factory sampleViewNoRC.model :=
  ⟨(c8_resource_class_resolution sampleView).1 bookResource rfl,
   (c8_resource_class_resolution sampleViewNoRC).2.1 rfl⟩

/-- Claim C4: when the requested title (default "csv") appears in the
allowed list and a resource class is configured, the API export action
returns a 200 response whose content type is the resolved format's
declared content type, whose Content-Disposition is an attachment with the
derived filename, and whose body is the encoded export of the
framework-filtered queryset; no signal is emitted. -/
theorem c4_allowed_format_export (v : View) (today : String) (rc : ResourceClass)
    (hrc : v.resource_class = some rc)
    (hmem : v.request.formatParam.getD "csv" ∈ get_allowed_export_formats v) :
    ∃ f, f ∈ get_export_formats v ∧
      f.get_title = v.request.formatParam.getD "csv" ∧
      drf_export v today = .ok (Response.http
        { body := f.export_data
            (get_data_for_export v v.request (v.filter_queryset v.get_queryset))
          contentType := f.get_content_type
          contentDisposition := "attachment; filename=\"" ++
            (rc.Meta_model.name ++ "-" ++ today ++ "." ++ f.get_extension) ++ "\""
          status := 200 }, []) := by
  cases hidx : listIndex (v.request.formatParam.getD "csv") (get_allowed_export_formats v) with
  | none => exact ((listIndex_eq_none_iff _ _).mp hidx hmem).elim
  | some i =>
    have hget : (get_allowed_export_formats v).get? i =
        some (v.request.formatParam.getD "csv") := listIndex_get _ _ i hidx
    have hmap : (get_allowed_export_formats v).get? i =
        ((get_export_formats v).get? i).map Format.get_title := by
      simp [get_allowed_export_formats, get_export_formats, List.getElem?_map]
    rw [hmap] at hget
    rcases Option.map_eq_some'.mp hget with ⟨f, hf, hft⟩
    refine ⟨f, List.get?_mem hf, hft, ?_⟩
    unfold drf_export
    simp only [hidx, hf, get_export_data, get_export_filename, hrc]

/-- Witness for C4: the sample view with `?format=csv` produces the csv
download response. -/
theorem c4_witness :
    ∃ f, f ∈ get_export_formats sampleView ∧
      f.get_title = sampleView.request.formatParam.getD "csv" ∧
      drf_export sampleView "2026-10-12" = .ok (Response.http
        { body := f.export_data
            (get_data_for_export sampleView sampleView.request
              (sampleView.filter_queryset sampleView.get_queryset))
          contentType := f.get_content_type
          contentDisposition := "attachment; filename=\"" ++
            (bookResource.Meta_model.name ++ "-" ++ "2026-10-12" ++ "." ++
              f.get_extension) ++ "\""
          status := 200 }, []) :=
  c4_allowed_format_export sampleView "2026-10-12" bookResource rfl (by decide)

/-- Claim C6: a valid submission carrying the decimal string of an
in-range index i makes `form_valid` select exactly the format at position
i of `get_export_formats` for encoding and filename derivation, while an
index at or past the end of the list faults with `IndexError` rather than
reaching any defensive error branch. -/
theorem c6_form_ordinal_selection (v : View) (today s : String) (i : Nat)
    (rc : ResourceClass) (f : Format)
    (hparse : pyInt s = some (i : Int))
    (hf : (get_export_formats v).get? i = some f)
    (hrc : v.resource_class = some rc) :
    form_valid v today s = .ok (Response.http
      { body := f.export_data (get_data_for_export v v.request (form_queryset v))
        contentType := f.get_content_type
        contentDisposition := "attachment; filename=\"" ++
          (rc.Meta_model.name ++ "-" ++ today ++ "." ++ f.get_extension) ++ "\""
        status := 200 },
      [Signal.postExport v.model]) ∧
    (∀ (t : String) (j : Int), pyInt t = some j →
      ((get_export_formats v).length : Int) ≤ j →
      form_valid v today t = .error Fault.indexError) := by
  refine ⟨form_valid_ok v today s i rc f hparse hf hrc, fun t j hp hj => ?_⟩
  unfold form_valid
  simp only [hp, pyIndex_oob _ _ hj]

/-- Witness for C6: submitting "0" against the sample view selects the
csv format, and submitting "5" faults with an IndexError. -/
theorem c6_witness :
    form_valid sampleView "2026-10-12" "0" = .ok (Response.http
      { body := "a,b|c,d"
        contentType := "text/csv"
        contentDisposition := "attachment; filename=\"Book-2026-10-12.csv\""
        status := 200 },
      [Signal.postExport bookModel]) ∧
    form_valid sampleView "2026-10-12" "5" = .error Fault.indexError :=
  ⟨(c6_form_ordinal_selection sampleView "2026-10-12" "0" 0 bookResource csvFormat
      (by decide) rfl rfl).1,
   (c6_form_ordinal_selection sampleView "2026-10-12" "0" 0 bookResource csvFormat
      (by decide) rfl rfl).2 "5" 5 (by decide) (by decide)⟩

/-- Claim C7: every successful form-flow export emits exactly one
post_export signal carrying the view's model before the response is
returned, while the API-action export path never emits any signal. -/
theorem c7_signal_asymmetry (v : View) (today s : String) :
    (∀ r sigs, form_valid v today s = .ok (r, sigs) →
      sigs = [Signal.postExport v.model]) ∧
    (∀ r sigs, drf_export v today = .ok (r, sigs) → sigs = []) := by
  constructor
  · intro r sigs h
    unfold form_valid at h
    repeat' split at h
    all_goals simp_all
  · intro r sigs h
    unfold drf_export at h
    cases hidx : listIndex (v.request.formatParam.getD "csv") (get_allowed_export_formats v) with
    | none =>
      simp only [hidx] at h
      simp only [Except.ok.injEq, Prod.mk.injEq] at h
      exact h.2.symm
    | some i =>
      simp only [hidx] at h
      cases hgf : (get_export_formats v).get? i with
      | none => simp only [hgf] at h; simp at h
      | some ff =>
        simp only [hgf] at h
        cases hfn : get_export_filename v today ff with
        | none => simp only [hfn] at h; simp at h
        | some fn =>
          simp only [hfn] at h
          simp only [Except.ok.injEq, Prod.mk.injEq] at h
          exact h.2.symm

/-- Witness for C7: concrete successful runs of both paths, with the
signal trace of each settled through the asymmetry theorem. -/
theorem c7_witness :
    (∃ sigs, form_valid sampleView "2026-10-12" "0" =
        .ok (Response.http
          { body := "a,b|c,d"
            contentType := "text/csv"
            contentDisposition := "attachment; filename=\"Book-2026-10-12.csv\""
            status := 200 }, sigs) ∧
      sigs = [Signal.postExport sampleView.model]) ∧
    (∃ sigs, drf_export sampleView "2026-10-12" =
        .ok (Response.http
          { body := "a,b|c,d"
            contentType := "text/csv"
            contentDisposition := "attachment; filename=\"Book-2026-10-12.csv\""
            status := 200 }, sigs) ∧
      sigs = []) :=
  ⟨⟨[Signal.postExport sampleView.model], rfl,
    (c7_signal_asymmetry sampleView "2026-10-12" "0").1 _ _ rfl⟩,
   ⟨[], rfl, (c7_signal_asymmetry sampleView "2026-10-12" "0").2 _ _ rfl⟩⟩

/-- Claim C9: the form flow exports the filterset queryset when the view
exposes the `get_filterset` capability and the raw `get_queryset` result
otherwise; the choice depends only on the presence of that capability. -/
theorem c9_queryset_preference (v : View) (today s : String) (i : Nat)
    (rc : ResourceClass) (f : Format)
    (hparse : pyInt s = some (i : Int))
    (hf : (get_export_formats v).get? i = some f)
    (hrc : v.resource_class = some rc) :
    (∀ qs, v.get_filterset_qs = some qs →
      form_valid v today s = .ok (Response.http
        { body := f.export_data (get_data_for_export v v.request qs)
          contentType := f.get_content_type
          contentDisposition := "attachment; filename=\"" ++
            (rc.Meta_model.name ++ "-" ++ today ++ "." ++ f.get_extension) ++ "\""
          status := 200 },
        [Signal.postExport v.model])) ∧
    (v.get_filterset_qs = none →
      form_valid v today s = .ok (Response.http
        { body := f.export_data (get_data_for_export v v.request v.get_queryset)
          contentType := f.get_content_type
          contentDisposition := "attachment; filename=\"" ++
            (rc.Meta_model.name ++ "-" ++ today ++ "." ++ f.get_extension) ++ "\""
          status := 200 },
        [Signal.postExport v.model])) := by
  constructor
  · intro qs hqs
    rw [form_valid_ok v today s i rc f hparse hf hrc]
    simp [form_queryset, hqs]
  · intro hqs
    rw [form_valid_ok v today s i rc f hparse hf hrc]
    simp [form_queryset, hqs]

/-- Witness for C9: the filtered sample view exports the filterset rows,
the unfiltered one exports the raw queryset. -/
theorem c9_witness :
    form_valid sampleViewFiltered "2026-10-12" "0" = .ok (Response.http
      { body := "f,g"
        contentType := "text/csv"
        contentDisposition := "attachment; filename=\"Book-2026-10-12.csv\""
        status := 200 },
      [Signal.postExport bookModel]) ∧
    form_valid sampleView "2026-10-12" "0" = .ok (Response.http
      { body := "a,b|c,d"
        contentType := "text/csv"
        contentDisposition := "attachment; filename=\"Book-2026-10-12.csv\""
        status := 200 },
      [Signal.postExport bookModel]) :=
  ⟨(c9_queryset_preference sampleViewFiltered "2026-10-12" "0" 0 bookResource csvFormat
      (by decide) rfl rfl).1 [["f", "g"]] rfl,
   (c9_queryset_preference sampleView "2026-10-12" "0" 0 bookResource csvFormat
      (by decide) rfl rfl).2 rfl⟩

/-- Claim C10: with `resource_class` left at its default `None`, filename
derivation faults for every format even though resource resolution and
data extraction succeed through the model factory, so neither export path
can produce the download response. -/
theorem c10_default_resource_class_fault (v : View) (today s : String) (qs : QuerySet)
    (h : v.resource_class = none) :
    (∀ f, get_export_filename v today f = none) ∧
    get_resource_class v = modelresource_factory v.model ∧
    get_data_for_export v v.request qs = (modelresource_factory v.model).exportFn [] qs ∧
    (∀ r sigs, form_valid v today s ≠ .ok (r, sigs)) ∧
    (∀ hr sigs, drf_export v today ≠ .ok (Response.http hr, sigs)) := by
  refine ⟨fun f => ?_, ?_, ?_, fun r sigs hok => ?_, fun hr sigs hok => ?_⟩
  · simp [get_export_filename, h]
  · simp [get_resource_class, h]
  · simp [get_data_for_export, get_export_resource_class, get_resource_class,
      get_export_resource_kwargs, get_resource_kwargs, h]
  · unfold form_valid at hok
    repeat' split at hok
    all_goals simp_all [get_export_filename]
  · unfold drf_export at hok
    cases hidx : listIndex (v.request.formatParam.getD "csv") (get_allowed_export_formats v) with
    | none => simp only [hidx] at hok; simp at hok
    | some i =>
      simp only [hidx] at hok
      cases hgf : (get_export_formats v).get? i with
      | none => simp only [hgf] at hok; simp at hok
      | some ff =>
        simp only [hgf] at hok
        simp only [get_export_filename, h] at hok
        simp at hok

/-- Witness for C10 on the sample view without a configured resource
class. -/
theorem c10_witness :
    get_export_filename sampleViewNoRC "2026-10-12" csvFormat = none ∧
    get_resource_class sampleViewNoRC = modelresource_factory sampleViewNoRC.model ∧
    form_valid sampleViewNoRC "2026-10-12" "0" ≠
      .ok (Response.http
        { body := "a,b|c,d"
          contentType := "text/csv"
          contentDisposition := "attachment; filename=\"Book-2026-10-12.csv\""
          status := 200 },
        [Signal.postExport sampleViewNoRC.model]) := by
  have hc := c10_default_resource_class_fault sampleViewNoRC "2026-10-12" "0" [] rfl
  exact ⟨hc.1 csvFormat, hc.2.1, hc.2.2.2.1 _ _⟩
